import Mathlib

/-!
Verification development for the zepid inverse-probability-of-treatment
weighting module (src/zepid/causal/ipw/IPTW.py) and the doubly-robust
estimation layer described by the specification (TMLE/AIPTW, whose classes
are exercised by src/tests/test_doublyrobust.py but whose source is not part
of the excerpt; those parts are modelled from the specification and are
marked as such).

Modelling conventions: python floats are rationals (reals where square
roots, exp or log are required), pandas missing values (NaN) are Option,
raised exceptions are Except over an error type, and console output and
warnings are explicit result fields.
-/

/-- Python exceptions raised by the module: ValueError and TypeError, each
carrying its message. -/
inductive PyErr where
  | valueError (msg : String)
  | typeError (msg : String)
  deriving DecidableEq, Repr

/-- One observation row of the working dataframe: the binary exposure
indicator (missing allowed, mirroring a NaN exposure) and one covariate
value used by the balance diagnostics. -/
structure Row where
  a : Option Bool
  x : ℚ
  deriving DecidableEq, Repr

/-- State of an IPTW instance (IPTW.__init__, IPTW.py lines 99-119): the
copied dataframe, the configuration, the fitted-model markers and the
probability columns written by regression_models, the weight results set by
fit, and the positivity summary fields.  The pos_sd field is real because
np.std takes a square root. -/
structure IPTWState where
  df : List Row
  stabilized : Bool
  standardize : String
  denominator_model : Option Unit := none
  numerator_model : Option Unit := none
  denomCol : List ℚ := []
  numerCol : List ℚ := []
  Weight : Option (List (Option ℚ)) := none
  ProbabilityDenominator : Option (List ℚ) := none
  ProbabilityNumerator : Option (List ℚ) := none
  iptwCol : Option (List (Option ℚ)) := none
  pos_avg : Option ℚ := none
  pos_min : Option ℚ := none
  pos_max : Option ℚ := none
  pos_sd : Option ℝ := none

/-- IPTW.__init__ (lines 99-119): copies the dataframe, stores treatment
column, stabilization flag and standardization target, and raises ValueError
when the target is not population, exposed or unexposed. -/
def iptwInit (df : List Row) (stabilized : Bool) (standardize : String) :
    Except PyErr IPTWState :=
  if standardize = "population" ∨ standardize = "exposed" ∨ standardize = "unexposed" then
    .ok { df := df, stabilized := stabilized, standardize := standardize }
  else
    .error (.valueError ("Please specify one of the currently supported weighting schemes: " ++
      "population, exposed, unexposed"))

/-- IPTW.regression_models (lines 153-210).  The logistic regression itself
is an external collaborator (propensity_score from zepid.causal.ipw.utils,
outside the excerpt), so the fitted models enter as their per-row predicted
probability columns d and n.  Registers the denominator model and writes the
probability columns; for unstabilized weights the numerator is the constant
1 (line 209), and no numerator model is fit. -/
def regressionModels (st : IPTWState) (d : List ℚ) (n : List ℚ) : IPTWState :=
  { st with
    denominator_model := some ()
    denomCol := d
    numerator_model := if st.stabilized then some () else st.numerator_model
    numerCol := if st.stabilized then n else List.replicate st.df.length 1 }

/-- IPTW._weight_calculator (lines 505-543), per row.  The nested np.where
pairs become: the first selects the branch by the exposure indicator, and
the second (df[ex].isna) overwrites the weight with NaN whenever the
exposure is missing, which the outer match captures directly.  The if
cascade on the standardization target mirrors the source: population, then
exposed, and everything else falls to the unexposed branch. -/
def weightCalcRow (stabilized : Bool) (standardize : String) (a : Option Bool)
    (d n : ℚ) : Option ℚ :=
  match a with
  | none => none
  | some a =>
    if stabilized then
      if standardize = "population" then
        some (if a then n / d else (1 - n) / (1 - d))
      else if standardize = "exposed" then
        some (if a then 1 else (d / (1 - d)) * ((1 - n) / n))
      else
        some (if a then ((1 - d) / d) * (n / (1 - n)) else 1)
    else
      if standardize = "population" then
        some (if a then 1 / d else 1 / (1 - d))
      else if standardize = "exposed" then
        some (if a then 1 else d / (1 - d))
      else
        some (if a then (1 - d) / d else 1)

/-- IPTW.fit (lines 212-227): raises ValueError when no denominator model
has been registered; otherwise stores the calculated weights and the
probability columns, and writes the iptw dataframe column as
numerator / denominator (line 227) for every row. -/
def iptwFit (st : IPTWState) : Except PyErr IPTWState :=
  if st.denominator_model = none then
    .error (.valueError "No model has been fit to generated predicted probabilities")
  else
    .ok { st with
      Weight := some ((st.df.zip (st.denomCol.zip st.numerCol)).map
        (fun rdn => weightCalcRow st.stabilized st.standardize rdn.1.a rdn.2.1 rdn.2.2))
      ProbabilityDenominator := some st.denomCol
      ProbabilityNumerator := some st.numerCol
      iptwCol := some ((st.numerCol.zip st.denomCol).map (fun nd => some (nd.1 / nd.2))) }

/-- pandas Series.dropna on a float column: keep the non-missing entries. -/
def dropna (l : List (Option ℚ)) : List ℚ := l.filterMap id

/-- np.mean of a list of rationals. -/
def listMean (l : List ℚ) : ℚ := l.sum / l.length

/-- The mean of squared deviations; np.std (default ddof 0) is its square
root. -/
def listVarPop (l : List ℚ) : ℚ := (l.map (fun v => (v - listMean l) ^ 2)).sum / l.length

/-- np.min of a nonempty list (the empty default is never used under the
nonemptiness precondition positivity carries). -/
def npMin (l : List ℚ) : ℚ :=
  match l with
  | [] => 0
  | v :: vs => vs.foldl min v

/-- np.max of a nonempty list. -/
def npMax (l : List ℚ) : ℚ :=
  match l with
  | [] => 0
  | v :: vs => vs.foldl max v

/-- One line of console output of IPTW.positivity: fixed text, or a label
with a numeric payload.  The numeric payloads are shown rounded to the
decimal argument in the source; that rounding is pure display formatting and
the model carries the emitted quantities themselves. -/
inductive ConsoleLine where
  | text (s : String)
  | stat (label : String) (value : ℝ)

/-- Result of IPTW.positivity: the updated instance state, the warnings
emitted, the console text produced, and the (None) return value. -/
structure PositivityResult where
  state : IPTWState
  warnings : List String
  console : List ConsoleLine
  ret : Unit

/-- IPTW.positivity (lines 318-352): rewrites the iptw dataframe column from
the Weight series, warns (without raising) when the weights are
unstabilized, computes mean, population standard deviation, minimum and
maximum of the non-missing weights, prints them, and returns None. -/
noncomputable def positivityDiag (st : IPTWState) : Except PyErr PositivityResult :=
  let ws := dropna (st.Weight.getD [])
  let avg := listMean ws
  let mx := npMax ws
  let mn := npMin ws
  let sd : ℝ := Real.sqrt (listVarPop ws)
  .ok
    { state := { st with
        iptwCol := some (st.Weight.getD [])
        pos_avg := some avg
        pos_max := some mx
        pos_min := some mn
        pos_sd := some sd }
      warnings := if st.stabilized then [] else
        ["Positivity should only be used for stabilized IPTW"]
      console :=
        [.text "----------------------------------------------------------------------",
         .text "IPW Diagnostic for positivity",
         .text "If the mean of the weights is far from either the min or max, this may\n indicate the model is\n                incorrect or positivity is violated",
         .text "Standard deviation can help in IPTW model selection",
         .text "----------------------------------------------------------------------",
         .stat "Mean weight:" (avg : ℝ),
         .stat "Standard Deviation:" sd,
         .stat "Minimum weight:" (mn : ℝ),
         .stat "Maximum weight:" (mx : ℝ),
         .text "----------------------------------------------------------------------"]
      ret := () }

/-- DescrStatsW weighted mean over pairs (value, weight). -/
def wMean (xw : List (ℚ × ℚ)) : ℚ :=
  (xw.map (fun p => p.1 * p.2)).sum / (xw.map (fun p => p.2)).sum

/-- IPTW._standardized_difference for a binary term, weighted branch (lines
457-474): the treated slice keeps rows with exposure 1 and a non-missing
weight, the untreated slice those with exposure 0 and a non-missing weight;
group means are weighted by the iptw column and the difference is divided by
the pooled binary standard deviation. -/
noncomputable def smdBinaryW (rows : List (ℚ × Option Bool)) (ws : List (Option ℚ)) : ℝ :=
  let paired := rows.zip ws
  let dft := paired.filterMap (fun p =>
    match p.1.2, p.2 with
    | some true, some w => some (p.1.1, w)
    | _, _ => none)
  let dfn := paired.filterMap (fun p =>
    match p.1.2, p.2 with
    | some false, some w => some (p.1.1, w)
    | _, _ => none)
  let wt := wMean dft
  let wn := wMean dfn
  ((wt - wn : ℚ) : ℝ) / Real.sqrt (((wt * (1 - wt) + wn * (1 - wn)) / 2 : ℚ))

/-- The weighted standardized mean difference as the pipeline computes it
(standardized_mean_differences, lines 383-430, feeding
_standardized_difference): the weights column passed in is the iptw column
of the fitted dataframe. -/
noncomputable def weightedSMDbinary (st : IPTWState) : ℝ :=
  smdBinaryW (st.df.map (fun r => (r.x, r.a))) (st.iptwCol.getD [])

/-- A fitted custom model object as the adapter probes it (hasattr checks,
lines 168-175): an optional two-column probability output (predict_proba,
whose second column is P of label 1) and an optional label-output predict. -/
structure FittedCustom where
  predict_proba : Option (List (ℚ × ℚ)) := none
  predict : Option (List ℚ) := none

/-- A custom model supplied to regression_models: its fit operation receives
the design matrix X and the exposure labels y and either raises TypeError
(the error case) or returns a fitted object. -/
structure CustomModel where
  fit : List (List ℚ) → List ℚ → Except Unit FittedCustom

/-- The formula string the adapter hands to patsy.dmatrix for a custom
denominator model (line 160): the user formula with " - 1" appended, which
in patsy removes the intercept column from the design matrix. -/
def denomDesignFormula (model_denominator : String) : String :=
  model_denominator ++ " - 1"

/-- IPTW.regression_models, custom denominator branch (lines 159-176): call
fit with X = design matrix and y = labels, re-raise an incompatible
signature as a descriptive TypeError, then prefer predict_proba (using its
column index 1) over predict, and raise ValueError when neither exists. -/
def customDenominatorFit (data : List (List ℚ)) (y : List ℚ)
    (custom : CustomModel) : Except PyErr (List ℚ) :=
  match custom.fit data y with
  | .error _ => .error (.typeError ("Currently custom_model must have the 'fit' function " ++
      "with arguments 'X', 'y'. This covers both sklearn and supylearner. If there is a " ++
      "predictive model you would like to use, please open an issue at " ++
      "https://github.com/pzivich/zepid and I can work on adding support"))
  | .ok fm =>
    match fm.predict_proba with
    | some probs => .ok (probs.map Prod.snd)
    | none =>
      match fm.predict with
      | some p => .ok p
      | none => .error (.valueError
          "Currently custom_model must have 'predict' or 'predict_proba' attribute")

/-- Modelled from the spec: the TMLE estimator state (the TMLE class is
outside the source excerpt; only src/tests/test_doublyrobust.py exercises
it).  Spec, sections 4.2-4.3: the state machine is UNFIT, models registered,
targeted, fit; the result entity is absent before fit. -/
structure TMLEState where
  exposure_model : Option Unit := none
  outcome_model : Option Unit := none
  results : Option Unit := none
  deriving DecidableEq, Repr

/-- Modelled from the spec: TMLE.fit fails with ValueError (No model has
been fit...) unless both an exposure model and an outcome model have been
registered, whichever single one is present; on success the result entity is
populated. -/
def tmleFit (st : TMLEState) : Except PyErr TMLEState :=
  if st.exposure_model = none ∨ st.outcome_model = none then
    .error (.valueError "No model has been fit to generate predicted probabilities")
  else
    .ok { st with results := some () }

/-- Modelled from the spec: the AIPTW estimator state (class outside the
source excerpt), with the same registration state machine as TMLE. -/
structure AIPTWState where
  exposure_model : Option Unit := none
  outcome_model : Option Unit := none
  results : Option Unit := none
  deriving DecidableEq, Repr

/-- Modelled from the spec: AIPTW.fit has the same precondition as TMLE.fit,
raising ValueError unless both nuisance models are registered. -/
def aiptwFit (st : AIPTWState) : Except PyErr AIPTWState :=
  if st.exposure_model = none ∨ st.outcome_model = none then
    .error (.valueError "No model has been fit to generate predicted probabilities")
  else
    .ok { st with results := some () }

/-- Modelled from the spec: the bound argument of TMLE.exposure_model; the
default is effectively unbounded, a scalar b means the symmetric interval
from b to 1 - b, and a two-element pair gives asymmetric lower/upper
bounds. -/
inductive BoundSpec where
  | nobound
  | scalar (b : ℝ)
  | pair (lo hi : ℝ)

/-- Modelled from the spec: resolve a bound specification to the concrete
lower/upper truncation pair. -/
def resolveBound : BoundSpec → ℝ × ℝ
  | .nobound => (0, 1)
  | .scalar b => (b, 1 - b)
  | .pair lo hi => (lo, hi)

/-- Truncate a probability into the closed interval from lo to hi. -/
def truncate (lo hi p : ℝ) : ℝ := min hi (max lo p)

/-- One observation as the targeting step sees it: outcome, exposure, the
propensity prediction g1 and the three initial outcome predictions. -/
structure TRow where
  y : ℝ
  a : Bool
  g1 : ℝ
  qA : ℝ
  q1 : ℝ
  q0 : ℝ

/-- Output of the targeting step: the fluctuation coefficients, the updated
counterfactual predictions, and the risk-difference point estimate. -/
structure TargetOut where
  eps1 : ℝ
  eps2 : ℝ
  q1star : List ℝ
  q0star : List ℝ
  psi : ℝ

/-- log-odds transform. -/
noncomputable def logit (p : ℝ) : ℝ := Real.log (p / (1 - p))

/-- inverse logit transform. -/
noncomputable def expit (x : ℝ) : ℝ := 1 / (1 + Real.exp (-x))

/-- Modelled from the spec: the TMLE targeting step (section 4.3).  The
propensity predictions are truncated into the resolved bound interval, the
clever covariates are built from the truncated values, the fluctuation
coefficients come from the constrained logistic regression - an external
solver receiving the clever covariate, the logit offsets and the outcomes -
and the counterfactual predictions are updated through the logistic
fluctuation before averaging into the point estimate. -/
noncomputable def tmleTarget (solver : List ℝ → List ℝ → List ℝ → ℝ × ℝ)
    (bound : BoundSpec) (rows : List TRow) : TargetOut :=
  let lohi := resolveBound bound
  let gB := rows.map (fun r => truncate lohi.1 lohi.2 r.g1)
  let hA := (rows.zip gB).map (fun p => if p.1.a then 1 / p.2 else -(1 / (1 - p.2)))
  let eps := solver hA (rows.map (fun r => logit r.qA)) (rows.map (fun r => r.y))
  let q1s := (rows.zip gB).map (fun p => expit (logit p.1.q1 + eps.1 * (1 / p.2)))
  let q0s := (rows.zip gB).map (fun p => expit (logit p.1.q0 + eps.2 * (-(1 / (1 - p.2)))))
  let r1 := q1s.sum / rows.length
  let r0 := q0s.sum / rows.length
  ⟨eps.1, eps.2, q1s, q0s, r1 - r0⟩

/-- Modelled from the spec: the confidence interval for risk ratio and odds
ratio (section 4.4) - a symmetric interval on the log scale, exponentiated
back to the natural scale. -/
noncomputable def ciRatio (psi z se : ℝ) : ℝ × ℝ :=
  (Real.exp (Real.log psi - z * se), Real.exp (Real.log psi + z * se))

/-- Modelled from the spec: the risk-difference confidence interval, the
point estimate plus or minus z times the standard error directly. -/
def ciRD (psi z se : ℝ) : ℝ × ℝ := (psi - z * se, psi + z * se)

/-- Read a dataframe cell in the explicit store model used for the
construction-copies-the-dataframe property. -/
def heapRead (h : List (List Row)) (r : ℕ) : List Row := h.getD r []

/-- Overwrite a dataframe cell: the mutation of the caller-owned dataframe
object. -/
def heapWrite (h : List (List Row)) (r : ℕ) (v : List Row) : List (List Row) :=
  h.set r v

/-- IPTW.__init__ line 107 (self.df = df.copy()) in the explicit store
model: construction allocates exactly one fresh cell holding a copy of the
contents of the caller cell, and the instance keeps the fresh reference. -/
def constructCopy (h : List (List Row)) (r : ℕ) : List (List Row) × ℕ :=
  (h ++ [heapRead h r], h.length)

/-- The weights the fitted instance derives from its stored dataframe, with
the external propensity model abstracted as a per-row prediction function
dn giving the denominator and numerator probabilities. -/
def computeWeightsAt (stab : Bool) (std : String) (dn : Row → ℚ × ℚ)
    (h : List (List Row)) (ref : ℕ) : List (Option ℚ) :=
  (heapRead h ref).map (fun row => weightCalcRow stab std row.a (dn row).1 (dn row).2)

/-- IPTW._categorical_cov (lines 545-570): the double loop over the two
category-proportion vectors, skipping index 0 (the reference category) in
both dimensions; diagonal entries average the two binomial variances and
off-diagonal entries are the averaged cross products divided by -2. -/
def categoricalCov (treated untreated : List ℚ) : List (List ℚ) :=
  (List.range treated.length).filterMap (fun i =>
    if i = 0 then none else
    some ((List.range untreated.length).filterMap (fun j =>
      if j = 0 then none
      else if i = j then
        some ((treated.getD i 0 * (1 - treated.getD i 0) +
               untreated.getD j 0 * (1 - untreated.getD j 0)) / 2)
      else
        some ((treated.getD i 0 * treated.getD j 0 +
               untreated.getD i 0 * untreated.getD j 0) / (-2)))))

/-- IPTW._standardized_difference, categorical branch (lines 493-503): the
non-reference mean-difference vector t_c[1:], the inverse of the custom
covariance matrix, and the square root of the quadratic form.  np.linalg.inv
is the matrix inverse (the Mathlib nonsingular inverse; numpy raises on a
singular matrix where Mathlib returns the zero matrix, a case the diagnostic
never meets on nondegenerate proportions). -/
noncomputable def categoricalSMD (wt wn : List ℚ) (m : ℕ) : ℝ :=
  let tc : Fin m → ℝ := fun i => ((wt.getD (i.val + 1) 0 - wn.getD (i.val + 1) 0 : ℚ) : ℝ)
  let S : Matrix (Fin m) (Fin m) ℝ := fun i j =>
    (((categoricalCov wt wn).getD i.val []).getD j.val 0 : ℚ)
  Real.sqrt (Matrix.dotProduct tc ((S⁻¹).mulVec tc))

/-- C1: fit() on an estimator before the required nuisance models have been
registered raises ValueError with a descriptive message; a freshly
constructed IPTW has no denominator model registered; for TMLE and AIPTW the
error is raised whichever single model is missing, and no result state is
populated (no ok state is produced at all). -/
theorem fit_requires_models :
    (∀ df stab std st, iptwInit df stab std = .ok st →
      st.denominator_model = none ∧
      iptwFit st = .error (.valueError
        "No model has been fit to generated predicted probabilities")) ∧
    (∀ t : TMLEState, t.exposure_model = none ∨ t.outcome_model = none →
      tmleFit t = .error (.valueError
        "No model has been fit to generate predicted probabilities") ∧
      ∀ s, tmleFit t ≠ .ok s) ∧
    (∀ t : AIPTWState, t.exposure_model = none ∨ t.outcome_model = none →
      aiptwFit t = .error (.valueError
        "No model has been fit to generate predicted probabilities") ∧
      ∀ s, aiptwFit t ≠ .ok s) := by
  refine ⟨?_, ?_, ?_⟩
  · intro df stab std st h
    unfold iptwInit at h
    split_ifs at h with hc
    · injection h with h
      subst h
      exact ⟨rfl, rfl⟩
  · intro t ht
    have h : tmleFit t = .error (.valueError
        "No model has been fit to generate predicted probabilities") := by
      unfold tmleFit
      rw [if_pos ht]
    exact ⟨h, fun s hs => by rw [h] at hs; exact Except.noConfusion hs⟩
  · intro t ht
    have h : aiptwFit t = .error (.valueError
        "No model has been fit to generate predicted probabilities") := by
      unfold aiptwFit
      rw [if_pos ht]
    exact ⟨h, fun s hs => by rw [h] at hs; exact Except.noConfusion hs⟩

/-- Witness for C1 at concrete states: a fresh IPTW instance, a TMLE with
only the exposure model, an AIPTW with only the outcome model. -/
theorem fit_requires_models_witness :
    ({ df := [], stabilized := true, standardize := "population" } : IPTWState).denominator_model
        = none ∧
    iptwFit { df := [], stabilized := true, standardize := "population" } =
      .error (.valueError "No model has been fit to generated predicted probabilities") ∧
    tmleFit { exposure_model := some (), outcome_model := none, results := none } =
      .error (.valueError "No model has been fit to generate predicted probabilities") ∧
    aiptwFit { exposure_model := none, outcome_model := some (), results := none } =
      .error (.valueError "No model has been fit to generate predicted probabilities") :=
  ⟨(fit_requires_models.1 [] true "population" _ rfl).1,
   (fit_requires_models.1 [] true "population" _ rfl).2,
   (fit_requires_models.2.1 _ (Or.inr rfl)).1,
   (fit_requires_models.2.2 _ (Or.inl rfl)).1⟩

/-- C2: the weight calculator returns exactly the branch value of the
stabilized/unstabilized times population/exposed/unexposed table, and every
row with missing exposure gets a missing weight in all six branches. -/
theorem weight_calculator_branch_table (a : Bool) (d n : ℚ)
    (hd0 : 0 < d) (hd1 : d < 1) (hn0 : 0 < n) (hn1 : n < 1) :
    weightCalcRow true "population" (some a) d n =
      some (if a then n / d else (1 - n) / (1 - d)) ∧
    weightCalcRow true "exposed" (some a) d n =
      some (if a then 1 else (d / (1 - d)) * ((1 - n) / n)) ∧
    weightCalcRow true "unexposed" (some a) d n =
      some (if a then ((1 - d) / d) * (n / (1 - n)) else 1) ∧
    weightCalcRow false "population" (some a) d n =
      some (if a then 1 / d else 1 / (1 - d)) ∧
    weightCalcRow false "exposed" (some a) d n =
      some (if a then 1 else d / (1 - d)) ∧
    weightCalcRow false "unexposed" (some a) d n =
      some (if a then (1 - d) / d else 1) ∧
    (∀ stab std, weightCalcRow stab std none d n = none) :=
  ⟨rfl, rfl, rfl, rfl, rfl, rfl, fun _ _ => rfl⟩

/-- Witness for C2 at exposure 1, denominator 1/2 and numerator 1/3. -/
theorem weight_calculator_branch_table_witness :
    weightCalcRow true "population" (some true) (1/2) (1/3) =
      some (if true then (1/3 : ℚ) / (1/2) else (1 - 1/3) / (1 - 1/2)) :=
  (weight_calculator_branch_table true (1/2) (1/3)
    (by norm_num) (by norm_num) (by norm_num) (by norm_num)).1

/-- C4: with a custom denominator model the design matrix formula excludes
the intercept (patsy formula with " - 1" appended); an incompatible fit
signature is re-raised as a descriptive TypeError; column index 1 of
predict_proba is used in preference to predict; and with neither predict
variant a ValueError is raised. -/
theorem custom_model_denominator_contract :
    (∀ md, denomDesignFormula md = md ++ " - 1") ∧
    (∀ data y cm, CustomModel.fit cm data y = .error () →
      customDenominatorFit data y cm = .error (.typeError
        ("Currently custom_model must have the 'fit' function " ++
         "with arguments 'X', 'y'. This covers both sklearn and supylearner. If there is a " ++
         "predictive model you would like to use, please open an issue at " ++
         "https://github.com/pzivich/zepid and I can work on adding support"))) ∧
    (∀ data y cm fm probs, CustomModel.fit cm data y = .ok fm →
      fm.predict_proba = some probs →
      customDenominatorFit data y cm = .ok (probs.map Prod.snd)) ∧
    (∀ data y cm fm p, CustomModel.fit cm data y = .ok fm →
      fm.predict_proba = none → fm.predict = some p →
      customDenominatorFit data y cm = .ok p) ∧
    (∀ data y cm fm, CustomModel.fit cm data y = .ok fm →
      fm.predict_proba = none → fm.predict = none →
      customDenominatorFit data y cm = .error (.valueError
        "Currently custom_model must have 'predict' or 'predict_proba' attribute")) := by
  refine ⟨fun md => rfl, ?_, ?_, ?_, ?_⟩
  · intro data y cm h
    unfold customDenominatorFit
    rw [h]
  · intro data y cm fm probs hfit hpp
    unfold customDenominatorFit
    rw [hfit]
    simp only [hpp]
  · intro data y cm fm p hfit hpp hp
    unfold customDenominatorFit
    rw [hfit]
    simp only [hpp, hp]
  · intro data y cm fm hfit hpp hp
    unfold customDenominatorFit
    rw [hfit]
    simp only [hpp, hp]

/-- Witness for C4: a model whose predict_proba output has rows (1/2, 3/4);
the adapter keeps column index 1. -/
theorem custom_model_denominator_contract_witness :
    customDenominatorFit [] [] ⟨fun _ _ => .ok ⟨some [(1/2, 3/4)], some [0]⟩⟩ =
      .ok ([((1:ℚ)/2, (3:ℚ)/4)].map Prod.snd) :=
  custom_model_denominator_contract.2.2.1 [] [] _ _ [(1/2, 3/4)] rfl rfl

/-- C5: the TMLE targeting step with a symmetric scalar bound b produces the
same fluctuation coefficients and the same point estimate (the entire
targeting output) as with the explicit asymmetric pair (b, 1 - b): bounding
is bound-value-driven, and both specifications resolve to the same
truncation interval. -/
theorem tmle_symmetric_bound_equivalence
    (solver : List ℝ → List ℝ → List ℝ → ℝ × ℝ) (rows : List TRow) (b : ℝ)
    (hb0 : 0 < b) (hb1 : b < 1/2) :
    tmleTarget solver (.scalar b) rows = tmleTarget solver (.pair b (1 - b)) rows := rfl

/-- Witness for C5 at b = 1/10 with a constant solver and a one-row
dataset. -/
theorem tmle_symmetric_bound_equivalence_witness :
    tmleTarget (fun _ _ _ => (0, 0)) (.scalar (1/10)) [⟨1, true, 1/2, 1/2, 1/2, 1/2⟩] =
      tmleTarget (fun _ _ _ => (0, 0)) (.pair (1/10) (1 - 1/10)) [⟨1, true, 1/2, 1/2, 1/2, 1/2⟩] :=
  tmle_symmetric_bound_equivalence _ _ (1/10) (by norm_num) (by norm_num)

/-- C8: constructing an IPTW with a standardize argument other than
population, exposed or unexposed raises ValueError at construction and
yields no instance; each of the three valid values is accepted and stored
unchanged. -/
theorem init_standardize_validation :
    (∀ df stab s, s ≠ "population" → s ≠ "exposed" → s ≠ "unexposed" →
      iptwInit df stab s = .error (.valueError
        ("Please specify one of the currently supported weighting schemes: " ++
         "population, exposed, unexposed"))) ∧
    (∀ df stab s, s = "population" ∨ s = "exposed" ∨ s = "unexposed" →
      (iptwInit df stab s).map IPTWState.standardize = .ok s) := by
  constructor
  · intro df stab s h1 h2 h3
    unfold iptwInit
    rw [if_neg]
    simp [h1, h2, h3]
  · intro df stab s h
    unfold iptwInit
    rw [if_pos h]
    rfl

/-- Witness for C8: an invalid target is rejected, a valid one is kept. -/
theorem init_standardize_validation_witness :
    iptwInit [] true "both" = .error (.valueError
      ("Please specify one of the currently supported weighting schemes: " ++
       "population, exposed, unexposed")) ∧
    (iptwInit [] true "exposed").map IPTWState.standardize = .ok "exposed" :=
  ⟨init_standardize_validation.1 [] true "both" (by decide) (by decide) (by decide),
   init_standardize_validation.2 [] true "exposed" (Or.inr (Or.inl rfl))⟩

/-- C7: construction copies the dataframe exactly once (one fresh cell is
allocated), the copy has the contents of the caller cell, and any later
mutation of the caller cell leaves the instance dataframe - and every weight
computed from it - unchanged. -/
theorem df_copied_once (h : List (List Row)) (r : ℕ) (hr : r < h.length)
    (v : List Row) (stab : Bool) (std : String) (dn : Row → ℚ × ℚ) :
    ((constructCopy h r).1).length = h.length + 1 ∧
    heapRead (constructCopy h r).1 (constructCopy h r).2 = heapRead h r ∧
    heapRead (heapWrite (constructCopy h r).1 r v) (constructCopy h r).2 =
      heapRead (constructCopy h r).1 (constructCopy h r).2 ∧
    computeWeightsAt stab std dn (heapWrite (constructCopy h r).1 r v) (constructCopy h r).2 =
      computeWeightsAt stab std dn (constructCopy h r).1 (constructCopy h r).2 := by
  have hne : r ≠ h.length := Nat.ne_of_lt hr
  have hset : heapRead (heapWrite (constructCopy h r).1 r v) (constructCopy h r).2 =
      heapRead (constructCopy h r).1 (constructCopy h r).2 := by
    unfold constructCopy heapRead heapWrite
    dsimp only
    simp only [List.getD_eq_getElem?_getD]
    rw [List.getElem?_set_ne hne]
  refine ⟨by simp [constructCopy], ?_, hset, ?_⟩
  · unfold constructCopy heapRead
    dsimp only
    simp only [List.getD_eq_getElem?_getD]
    rw [List.getElem?_concat_length]
    rfl
  · unfold computeWeightsAt
    rw [hset]

/-- Witness for C7 at a one-cell store holding a one-row dataframe. -/
theorem df_copied_once_witness :
    computeWeightsAt true "population" (fun _ => (1/2, 1/2))
        (heapWrite (constructCopy [[⟨some true, 0⟩]] 0).1 0 [])
        (constructCopy [[⟨some true, 0⟩]] 0).2 =
      computeWeightsAt true "population" (fun _ => (1/2, 1/2))
        (constructCopy [[⟨some true, 0⟩]] 0).1
        (constructCopy [[⟨some true, 0⟩]] 0).2 :=
  (df_copied_once [[⟨some true, 0⟩]] 0 (by norm_num) [] true "population"
    (fun _ => (1/2, 1/2))).2.2.2

/-- Counterexample for C6 as stated: with a finite log-scale standard error
of zero (and point estimate 2), the exponentiated interval collapses to the
point estimate and is symmetric around it on the natural scale, so
"never symmetric" does not hold under finiteness alone. -/
theorem ci_ratio_symmetric_at_zero_se :
    (0 : ℝ) < 2 ∧ ciRatio 2 (196/100) 0 = (2, 2) ∧
    (ciRatio 2 (196/100) 0).2 - 2 = 2 - (ciRatio 2 (196/100) 0).1 := by
  have h : ciRatio 2 (196/100) 0 = (2, 2) := by
    unfold ciRatio
    rw [mul_zero, sub_zero, add_zero, Real.exp_log (by norm_num)]
  refine ⟨by norm_num, h, by rw [h]⟩

/-- C6 amended: for a strictly positive point estimate, a positive critical
value and a strictly positive log-scale standard error, the ratio-scale
confidence interval is the exponentiated log-scale interval, both bounds are
strictly positive, the interval is not symmetric around the point estimate
on the natural scale, and the risk-difference interval is the direct
plus/minus interval. -/
theorem ci_ratio_transform (psi z se : ℝ)
    (hpsi : 0 < psi) (hz : 0 < z) (hse : 0 < se) :
    ciRatio psi z se = (Real.exp (Real.log psi - z * se), Real.exp (Real.log psi + z * se)) ∧
    0 < (ciRatio psi z se).1 ∧ 0 < (ciRatio psi z se).2 ∧
    (ciRatio psi z se).2 - psi ≠ psi - (ciRatio psi z se).1 ∧
    ciRD psi z se = (psi - z * se, psi + z * se) := by
  have hx : 0 < z * se := mul_pos hz hse
  refine ⟨rfl, Real.exp_pos _, Real.exp_pos _, ?_, rfl⟩
  have hup : (ciRatio psi z se).2 = psi * Real.exp (z * se) := by
    unfold ciRatio
    rw [Real.exp_add, Real.exp_log hpsi]
  have hlo : (ciRatio psi z se).1 = psi * Real.exp (-(z * se)) := by
    unfold ciRatio
    rw [sub_eq_add_neg, Real.exp_add, Real.exp_log hpsi]
  rw [hup, hlo]
  intro heq
  have ht : 1 < Real.exp (z * se) := by
    have := Real.add_one_lt_exp (ne_of_gt hx)
    linarith
  have htpos : 0 < Real.exp (z * se) := Real.exp_pos _
  have hneg : Real.exp (-(z * se)) = (Real.exp (z * se))⁻¹ := Real.exp_neg _
  rw [hneg] at heq
  have h2 : Real.exp (z * se) + (Real.exp (z * se))⁻¹ = 2 := by
    have hsum : psi * (Real.exp (z * se) + (Real.exp (z * se))⁻¹ - 2) = 0 := by
      linear_combination heq
    rcases mul_eq_zero.mp hsum with hp | hq
    · exact absurd hp (ne_of_gt hpsi)
    · linarith
  have h4 : Real.exp (z * se) * Real.exp (z * se) + 1 = 2 * Real.exp (z * se) := by
    have h3 := congrArg (fun w => w * Real.exp (z * se)) h2
    simp only at h3
    rw [add_mul, inv_mul_cancel₀ (ne_of_gt htpos)] at h3
    linarith
  nlinarith [mul_pos (sub_pos.mpr ht) (sub_pos.mpr ht)]

/-- Witness for C6 amended at point estimate 2, critical value 1 and
log-scale standard error 1. -/
theorem ci_ratio_transform_witness :
    ciRatio 2 1 1 = (Real.exp (Real.log 2 - 1 * 1), Real.exp (Real.log 2 + 1 * 1)) ∧
    0 < (ciRatio 2 1 1).1 ∧ 0 < (ciRatio 2 1 1).2 ∧
    (ciRatio 2 1 1).2 - 2 ≠ 2 - (ciRatio 2 1 1).1 ∧
    ciRD 2 1 1 = (2 - 1 * 1, 2 + 1 * 1) :=
  ci_ratio_transform 2 1 1 (by norm_num) (by norm_num) (by norm_num)

/-- C9: positivity on a fitted instance never raises - unstabilized weights
produce a UserWarning only; it computes mean, standard deviation, minimum
and maximum of the non-missing fitted weights, emits them only as formatted
console text, and its return value is None. -/
theorem positivity_behavior (st : IPTWState) (ws : List (Option ℚ))
    (hW : st.Weight = some ws) (hne : dropna ws ≠ []) :
    positivityDiag st = .ok
      { state := { st with
          iptwCol := some ws
          pos_avg := some (listMean (dropna ws))
          pos_max := some (npMax (dropna ws))
          pos_min := some (npMin (dropna ws))
          pos_sd := some (Real.sqrt (listVarPop (dropna ws))) }
        warnings := if st.stabilized then [] else
          ["Positivity should only be used for stabilized IPTW"]
        console :=
          [.text "----------------------------------------------------------------------",
           .text "IPW Diagnostic for positivity",
           .text "If the mean of the weights is far from either the min or max, this may\n indicate the model is\n                incorrect or positivity is violated",
           .text "Standard deviation can help in IPTW model selection",
           .text "----------------------------------------------------------------------",
           .stat "Mean weight:" ((listMean (dropna ws) : ℚ) : ℝ),
           .stat "Standard Deviation:" (Real.sqrt (listVarPop (dropna ws))),
           .stat "Minimum weight:" ((npMin (dropna ws) : ℚ) : ℝ),
           .stat "Maximum weight:" ((npMax (dropna ws) : ℚ) : ℝ),
           .text "----------------------------------------------------------------------"]
        ret := () } := by
  unfold positivityDiag
  rw [hW]
  rfl

/-- A concrete unstabilized fitted instance used by the C9 witness: weights
1, 1 and one missing value. -/
def c9state : IPTWState :=
  { df := [], stabilized := false, standardize := "population",
    Weight := some [some 1, some 1, none] }

/-- Witness for C9 at an unstabilized instance whose fitted weights are
1, 1 and one missing value. -/
theorem positivity_behavior_witness :
    positivityDiag c9state = .ok
      { state := { c9state with
          iptwCol := some [some 1, some 1, none]
          pos_avg := some (listMean (dropna [some 1, some 1, none]))
          pos_max := some (npMax (dropna [some 1, some 1, none]))
          pos_min := some (npMin (dropna [some 1, some 1, none]))
          pos_sd := some (Real.sqrt (listVarPop (dropna [some 1, some 1, none]))) }
        warnings := if (false : Bool) then [] else
          ["Positivity should only be used for stabilized IPTW"]
        console :=
          [.text "----------------------------------------------------------------------",
           .text "IPW Diagnostic for positivity",
           .text "If the mean of the weights is far from either the min or max, this may\n indicate the model is\n                incorrect or positivity is violated",
           .text "Standard deviation can help in IPTW model selection",
           .text "----------------------------------------------------------------------",
           .stat "Mean weight:" ((listMean (dropna [some 1, some 1, none]) : ℚ) : ℝ),
           .stat "Standard Deviation:" (Real.sqrt (listVarPop (dropna [some 1, some 1, none]))),
           .stat "Minimum weight:" ((npMin (dropna [some 1, some 1, none]) : ℚ) : ℝ),
           .stat "Maximum weight:" ((npMax (dropna [some 1, some 1, none]) : ℚ) : ℝ),
           .text "----------------------------------------------------------------------"]
        ret := () } :=
  positivity_behavior _ [some 1, some 1, none] rfl (by decide)

/-- A concrete stabilized population-weighted instance after
regression_models: two treated rows with denominator 1/2 and two untreated
rows with denominators 1/4 and 1/2, numerator 1/2 throughout. -/
def c3pre : IPTWState :=
  regressionModels
    { df := [⟨some true, 1⟩, ⟨some true, 0⟩, ⟨some false, 1⟩, ⟨some false, 0⟩],
      stabilized := true, standardize := "population" }
    [1/2, 1/2, 1/4, 1/2] [1/2, 1/2, 1/2, 1/2]

/-- The state fit() produces on c3pre (the equation below proves this is
the fit output): the Weight series follows the stabilized population branch
table, while the iptw column is numerator/denominator. -/
def c3fitted : IPTWState :=
  { c3pre with
    Weight := some [some 1, some 1, some (2/3), some 1]
    ProbabilityDenominator := some [1/2, 1/2, 1/4, 1/2]
    ProbabilityNumerator := some [1/2, 1/2, 1/2, 1/2]
    iptwCol := some [some 1, some 1, some 2, some 1] }

/-- C3 (code bug): fit() writes the iptw column as numerator/denominator
(IPTW.py line 227) rather than the branch-table Weight it computes on line
224, and the weighted standardized mean difference consumes that iptw
column; at this concrete input the iptw column is [1, 1, 2, 1] while the
Weight series is [1, 1, 2/3, 1] (the unexposed branch differs), and the
weighted SMD computed from the iptw column differs from the one the
branch-table weights would give. -/
theorem smd_weight_divergence :
    iptwFit c3pre = .ok c3fitted ∧
    c3fitted.iptwCol = some [some 1, some 1, some 2, some 1] ∧
    c3fitted.Weight = some [some 1, some 1, some (2/3), some 1] ∧
    weightedSMDbinary c3fitted =
      smdBinaryW [(1, some true), (0, some true), (1, some false), (0, some false)]
        [some 1, some 1, some 2, some 1] ∧
    smdBinaryW [(1, some true), (0, some true), (1, some false), (0, some false)]
        [some 1, some 1, some 2, some 1] ≠
      smdBinaryW [(1, some true), (0, some true), (1, some false), (0, some false)]
        [some 1, some 1, some (2/3), some 1] := by
  have hok : iptwFit c3pre = .ok c3fitted := by
    unfold iptwFit
    rw [if_neg (by decide)]
    unfold c3fitted c3pre regressionModels
    norm_num [weightCalcRow, List.zip, List.zipWith]
  have hcol : c3fitted.iptwCol = some [some 1, some 1, some 2, some 1] := rfl
  have hwt : c3fitted.Weight = some [some 1, some 1, some (2/3), some 1] := rfl
  have hdf : c3fitted.df.map (fun r => (r.x, r.a)) =
      [(1, some true), (0, some true), (1, some false), (0, some false)] := rfl
  have hgetD : c3fitted.iptwCol.getD [] = [some 1, some 1, some 2, some 1] := rfl
  have h4 : weightedSMDbinary c3fitted =
      smdBinaryW [(1, some true), (0, some true), (1, some false), (0, some false)]
        [some 1, some 1, some 2, some 1] := by
    unfold weightedSMDbinary
    rw [hdf, hgetD]
  refine ⟨hok, hcol, hwt, h4, ?_⟩
  have e1 : smdBinaryW [(1, some true), (0, some true), (1, some false), (0, some false)]
      [some 1, some 1, some 2, some 1] =
      ((-1/6 : ℚ) : ℝ) / Real.sqrt ((17/72 : ℚ)) := by
    simp only [smdBinaryW, wMean]
    norm_num [List.zip, List.zipWith, List.filterMap]
  have e2 : smdBinaryW [(1, some true), (0, some true), (1, some false), (0, some false)]
      [some 1, some 1, some (2/3), some 1] =
      ((1/10 : ℚ) : ℝ) / Real.sqrt ((49/200 : ℚ)) := by
    simp only [smdBinaryW, wMean]
    norm_num [List.zip, List.zipWith, List.filterMap]
  rw [e1, e2]
  have hL : ((-1/6 : ℚ) : ℝ) / Real.sqrt ((17/72 : ℚ)) < 0 :=
    div_neg_of_neg_of_pos (by norm_num) (Real.sqrt_pos.mpr (by norm_num))
  have hR : (0 : ℝ) < ((1/10 : ℚ) : ℝ) / Real.sqrt ((49/200 : ℚ)) :=
    div_pos (by norm_num) (Real.sqrt_pos.mpr (by norm_num))
  exact ne_of_lt (hL.trans hR)

/-- filterMap over an index range where index 0 is skipped and every later
index i contributes g i. -/
theorem filterMap_range_shift {α : Type} (n : ℕ) (g : ℕ → α) :
    (List.range (n + 1)).filterMap (fun i => if i = 0 then none else some (g i)) =
    (List.range n).map (fun i => g (i + 1)) := by
  induction n with
  | zero => rfl
  | succ n ih =>
    rw [List.range_succ, List.filterMap_append, ih, List.range_succ, List.map_append]
    simp

/-- The two-branch variant: index 0 is skipped and every later index
contributes one of two values selected by a predicate. -/
theorem filterMap_range_shift2 {α : Type} (n : ℕ) (P : ℕ → Prop) [DecidablePred P]
    (g1 g2 : ℕ → α) :
    (List.range (n + 1)).filterMap
      (fun j => if j = 0 then none else if P j then some (g1 j) else some (g2 j)) =
    (List.range n).map (fun j => if P (j + 1) then g1 (j + 1) else g2 (j + 1)) := by
  induction n with
  | zero => rfl
  | succ n ih =>
    rw [List.range_succ, List.filterMap_append, ih, List.range_succ, List.map_append]
    by_cases h : P (n + 1) <;> simp [h]

/-- getD of a mapped index range at an in-range position. -/
theorem getD_map_range {α : Type} (m i : ℕ) (hi : i < m) (F : ℕ → α) (d : α) :
    ((List.range m).map F).getD i d = F i := by
  rw [List.getD_eq_getElem?_getD, List.getElem?_map, List.getElem?_range hi]
  rfl

/-- Normal form of the _categorical_cov double loop on inputs of length
m + 1: the (m x m) nested map over the non-reference indices. -/
theorem categoricalCov_eq_map (t u : List ℚ) (m : ℕ)
    (ht : t.length = m + 1) (hu : u.length = m + 1) :
    categoricalCov t u =
      (List.range m).map (fun i =>
        (List.range m).map (fun j =>
          if i + 1 = j + 1 then
            (t.getD (i+1) 0 * (1 - t.getD (i+1) 0) +
             u.getD (j+1) 0 * (1 - u.getD (j+1) 0)) / 2
          else
            (t.getD (i+1) 0 * t.getD (j+1) 0 +
             u.getD (i+1) 0 * u.getD (j+1) 0) / (-2))) := by
  unfold categoricalCov
  rw [ht, hu]
  rw [filterMap_range_shift]
  simp only [filterMap_range_shift2]

/-- Entry formula for the covariance matrix: averaged binomial variances on
the diagonal, negated averaged cross products off it, always indexing the
proportion vectors from 1. -/
theorem categoricalCov_entry (t u : List ℚ) (m : ℕ)
    (ht : t.length = m + 1) (hu : u.length = m + 1)
    (i j : ℕ) (hi : i < m) (hj : j < m) :
    ((categoricalCov t u).getD i []).getD j 0 =
      if i = j then
        (t.getD (i+1) 0 * (1 - t.getD (i+1) 0) +
         u.getD (j+1) 0 * (1 - u.getD (j+1) 0)) / 2
      else
        -((t.getD (i+1) 0 * t.getD (j+1) 0 +
           u.getD (i+1) 0 * u.getD (j+1) 0) / 2) := by
  rw [categoricalCov_eq_map t u m ht hu, getD_map_range m i hi, getD_map_range m j hj]
  by_cases h : i = j
  · subst h
    rw [if_pos rfl, if_pos rfl]
  · rw [if_neg (by omega), if_neg h, div_neg]

/-- C10: _categorical_cov on two equal-length proportion vectors of length
k at least 2 yields a (k-1) x (k-1) matrix excluding the reference
category, with diagonal (P1(1-P1)+P2(1-P2))/2 and off-diagonal
-(P1 P1 + P2 P2)/2, and the categorical standardized mean difference is
the square root of the quadratic form of the non-reference mean-difference
vector with the inverse of this matrix. -/
theorem categorical_cov_entries_and_smd (t u : List ℚ) (k : ℕ)
    (ht : t.length = k) (hu : u.length = k) (hk : 2 ≤ k) :
    (categoricalCov t u).length = k - 1 ∧
    (∀ row ∈ categoricalCov t u, row.length = k - 1) ∧
    (∀ i j, i < k - 1 → j < k - 1 →
      ((categoricalCov t u).getD i []).getD j 0 =
        if i = j then
          (t.getD (i+1) 0 * (1 - t.getD (i+1) 0) +
           u.getD (j+1) 0 * (1 - u.getD (j+1) 0)) / 2
        else
          -((t.getD (i+1) 0 * t.getD (j+1) 0 +
             u.getD (i+1) 0 * u.getD (j+1) 0) / 2)) ∧
    (∀ wt wn m, categoricalSMD wt wn m =
      Real.sqrt (Matrix.dotProduct
        (fun i : Fin m => ((wt.getD (i.val + 1) 0 - wn.getD (i.val + 1) 0 : ℚ) : ℝ))
        (Matrix.mulVec
          ((fun i j : Fin m =>
            ((((categoricalCov wt wn).getD i.val []).getD j.val 0 : ℚ) : ℝ)) :
              Matrix (Fin m) (Fin m) ℝ)⁻¹
          (fun i : Fin m => ((wt.getD (i.val + 1) 0 - wn.getD (i.val + 1) 0 : ℚ) : ℝ))))) := by
  obtain ⟨m, rfl⟩ : ∃ m, k = m + 1 := ⟨k - 1, by omega⟩
  refine ⟨?_, ?_, ?_, fun wt wn m => rfl⟩
  · rw [categoricalCov_eq_map t u m ht hu]
    simp
  · intro row hrow
    rw [categoricalCov_eq_map t u m ht hu] at hrow
    simp only [List.mem_map, List.mem_range] at hrow
    obtain ⟨i, hi, rfl⟩ := hrow
    simp
  · intro i j hi hj
    exact categoricalCov_entry t u m ht hu i j (by omega) (by omega)

/-- Witness for C10 at the proportion vectors (1/2, 1/4) and (1/3, 1/3) of
length 2: the covariance matrix is 1 x 1. -/
theorem categorical_cov_entries_and_smd_witness :
    (categoricalCov [1/2, 1/4] [1/3, 1/3]).length = 2 - 1 :=
  (categorical_cov_entries_and_smd [1/2, 1/4] [1/3, 1/3] 2 rfl rfl (by norm_num)).1
